import Mathlib

/-!
Verification of the podcli clip-generation pipeline.

Shallow embedding of the Python sources in `backend/`:
* `backend/cli.py` (`_suggest_clips`): candidate generation and greedy selection;
* `backend/services/clip_generator.py` (`_clean_transcript_words`, `generate_clip`);
* `backend/services/video_processor.py` (`crop_to_vertical`, `_detect_face_offset`);
* `backend/services/audio_analyzer.py` (`compute_energy_scores`);
* `backend/services/caption_renderer.py` (`_sanitize_words`, `render_captions`).

Python floats are modelled as exact rationals (`ℚ`); decimal literals such as
`0.6`, `0.3`, `0.5625` are the corresponding rationals.  Python's `round`
(banker's rounding, half to even) is `pyRound`; `int()` truncation is `pyTrunc`;
integer floor division `//` is `Int.fdiv`.
-/

namespace Podcli

/-- Python's built-in `round` to an integer: round half to even. -/
def pyRound (q : ℚ) : ℤ :=
  if q - (⌊q⌋ : ℚ) < 1/2 then ⌊q⌋
  else if 1/2 < q - (⌊q⌋ : ℚ) then ⌊q⌋ + 1
  else if ⌊q⌋ % 2 = 0 then ⌊q⌋ else ⌊q⌋ + 1

/-- Python's `round(x, 2)`: round to two decimal places, half to even. -/
def pyRound2 (q : ℚ) : ℚ := (pyRound (q * 100) : ℚ) / 100

/-- Python's `int()` applied to a float: truncation toward zero. -/
def pyTrunc (q : ℚ) : ℤ := if q < 0 then ⌈q⌉ else ⌊q⌋

/-- Whether `needle` occurs as a contiguous run inside `haystack` (Python's `in` on strings). -/
def subOccurs (needle : List Char) : List Char → Bool
  | [] => needle.isEmpty
  | h :: t => needle.isPrefixOf (h :: t) || subOccurs needle t

/-- Python's `needle in haystack` for strings. -/
def strIn (needle haystack : String) : Bool := subOccurs needle.data haystack.data

/-- Maximum of a list of rationals, as Python's `max` on a nonempty list
(returns `0` on `[]`, which the embedded code never reaches). -/
def listMax (l : List ℚ) : ℚ := l.foldl max (l.headD 0)

/-- A transcript segment (`{"text", "start", "end"}` dict); `end` is `stop` here
because `end` is a Lean keyword. -/
structure Segment where
  text : String
  start : ℚ
  stop : ℚ
deriving DecidableEq

instance : Inhabited Segment := ⟨⟨"", 0, 0⟩⟩

/-- A clip suggestion as built by `_suggest_clips` in `backend/cli.py`. -/
structure Clip where
  title : String
  start_second : ℤ
  end_second : ℤ
  duration : ℤ
  score : ℚ
  preview : String
deriving DecidableEq

instance : Inhabited Clip := ⟨⟨"", 0, 0, 0, 0, ""⟩⟩

/-- A seven-segment demo transcript: window size 6 fits exactly once (at
index 0, spanning 0 s to 6.4 s) and the window scores 4 (question mark +3,
uppercase start +1). -/
def demoSegs7 : List Segment :=
  [⟨"What?", 0, 1⟩, ⟨"a", 1, 2⟩, ⟨"b", 2, 3⟩, ⟨"c", 3, 4⟩, ⟨"d", 4, 5⟩,
   ⟨"e", 5, 32/5⟩, ⟨"f", 32/5, 7⟩]

/-- The engagement-keyword list of `_suggest_clips`. -/
def KEYWORDS : List String :=
  ["secret", "mistake", "important", "never", "always", "best",
   "how to", "why", "story", "amazing", "changed", "money",
   "learn", "truth", "actually", "problem", "solution", "believe",
   "crazy", "number one", "biggest", "first thing", "listen",
   "here's the thing", "let me tell you", "the key", "game changer",
   "nobody talks about", "most people", "don't realize"]

/-- The window step `step = max(1, int(win_size * 0.6))`. -/
def stepOf (winSize : ℕ) : ℕ := (max 1 (pyTrunc ((winSize : ℚ) * (6/10)))).toNat

/-- The index list of Python's `range(0, n, step)` for `step ≥ 1`. -/
def pyRange (n : ℤ) (step : ℕ) : List ℕ :=
  (List.range ((n.toNat + step - 1) / step)).map (· * step)

/-- The window `segments[i : i + winSize]`. -/
def windowOf (segments : List Segment) (winSize i : ℕ) : List Segment :=
  (segments.drop i).take winSize

/-- The joined window text, `" ".join(s.get("text", "") for s in win)`. -/
def windowText (segments : List Segment) (winSize i : ℕ) : String :=
  String.intercalate " " ((windowOf segments winSize i).map (·.text))

/-- The window start, `win[0].get("start", 0)`. -/
def windowStart (segments : List Segment) (winSize i : ℕ) : ℚ :=
  ((windowOf segments winSize i).headD default).start

/-- The window end, `win[-1].get("end", 0)`. -/
def windowStop (segments : List Segment) (winSize i : ℕ) : ℚ :=
  ((windowOf segments winSize i).getLastD default).stop

/-- The duration `dur = end - start` of a window. -/
def windowDur (segments : List Segment) (winSize i : ℕ) : ℚ :=
  windowStop segments winSize i - windowStart segments winSize i

/-- The text-heuristic part of a window's score: `+3` for a question mark,
`+2` for a bang, `+1` for length over 200, `+2` per present keyword
(presence, not occurrence count), `+1` when the first segment's trimmed text
starts with an uppercase letter. -/
def windowBaseScore (segments : List Segment) (winSize i : ℕ) : ℚ :=
  let text := windowText segments winSize i
  let textLower := text.toLower
  (if text.contains '?' then 3 else 0) +
  (if text.contains '!' then 2 else 0) +
  (if 200 < text.length then 1 else 0) +
  2 * ((KEYWORDS.filter (fun kw => strIn kw textLower)).length) +
  (let firstText := ((windowOf segments winSize i).headD default).text.trim
   if ¬firstText.isEmpty ∧ firstText.front.isUpper then 1 else 0)

/-- The audio-energy boost of a window:
`0.5 * avg(energy_scores[i : i + winSize]) + 0.3 * max(...)`, zero when the
energy list is absent, empty, or has no entry for the window. -/
def windowEnergy (energyScores : Option (List ℚ)) (winSize i : ℕ) : ℚ :=
  match energyScores with
  | none => 0
  | some es =>
      if es.isEmpty then 0
      else
        let segEnergies := (es.drop i).take winSize
        if segEnergies.isEmpty then 0
        else (segEnergies.sum / segEnergies.length) * (1/2) + listMax segEnergies * (3/10)

/-- Full score of a window. -/
def windowScore (segments : List Segment) (energyScores : Option (List ℚ))
    (winSize i : ℕ) : ℚ :=
  windowBaseScore segments winSize i + windowEnergy energyScores winSize i

/-- The clip record appended for an accepted window. -/
def windowClip (segments : List Segment) (energyScores : Option (List ℚ))
    (winSize i : ℕ) : Clip :=
  { title := ((windowText segments winSize i).take 55).trim ++ "..."
    start_second := pyRound (windowStart segments winSize i)
    end_second := pyRound (windowStop segments winSize i)
    duration := pyRound (windowDur segments winSize i)
    score := pyRound2 (windowScore segments energyScores winSize i)
    preview := ((windowText segments winSize i).take 100).trim }

/-- One candidate of the `_suggest_clips` window loop: the window of `winSize`
segments starting at index `i`, or `none` if the duration filter or the
`score >= 3` threshold rejects it.  Mirrors `backend/cli.py` lines 205-252. -/
def windowCandidate (segments : List Segment) (energyScores : Option (List ℚ))
    (minDur maxDur : ℚ) (winSize i : ℕ) : Option Clip :=
  if windowDur segments winSize i < minDur ∨ maxDur < windowDur segments winSize i then none
  else if 3 ≤ windowScore segments energyScores winSize i then
    some (windowClip segments energyScores winSize i)
  else none

/-- All pooled candidates of `_suggest_clips` (window sizes 6, 8, 10, 12,
step `max(1, int(0.6 * size))`, windows at `range(0, len(segments) - size, step)`). -/
def genCandidates (segments : List Segment) (energyScores : Option (List ℚ))
    (minDur maxDur : ℚ) : List Clip :=
  ([6, 8, 10, 12] : List ℕ).flatMap fun winSize =>
    (pyRange ((segments.length : ℤ) - winSize) (stepOf winSize)).filterMap
      (windowCandidate segments energyScores minDur maxDur winSize)

/-- The `> 50%`-of-own-duration overlap test of the selection loop:
`clip` strictly overlaps `sel` and the overlap exceeds half of `clip`'s duration. -/
def tooMuchOverlap (clip sel : Clip) : Bool :=
  (clip.start_second < sel.end_second && sel.start_second < clip.end_second) &&
  decide ((min clip.end_second sel.end_second - max clip.start_second sel.start_second : ℚ)
            > (clip.duration : ℚ) * (1/2))

/-- Score-descending comparison used to sort the candidate pool (stable, like
Python's `sort(key=score, reverse=True)`). -/
def scoreGE (a b : Clip) : Prop := b.score ≤ a.score

instance : DecidableRel scoreGE := fun a b => inferInstanceAs (Decidable (b.score ≤ a.score))

instance : IsTotal Clip scoreGE := ⟨fun a b => (le_total b.score a.score)⟩

instance : IsTrans Clip scoreGE := ⟨fun _ _ _ h1 h2 => le_trans h2 h1⟩

/-- Start-ascending comparison used for the final ordering of selected clips. -/
def startLE (a b : Clip) : Prop := a.start_second ≤ b.start_second

instance : DecidableRel startLE := fun a b =>
  inferInstanceAs (Decidable (a.start_second ≤ b.start_second))

instance : IsTotal Clip startLE := ⟨fun a b => le_total a.start_second b.start_second⟩

instance : IsTrans Clip startLE := ⟨fun _ _ _ h1 h2 => le_trans h1 h2⟩

/-- One iteration body of the selection loop: accept `clip` unless it
overlaps an already-accepted clip by more than half its own duration. -/
def greedyStep (clip : Clip) (sel : List Clip) : List Clip :=
  if sel.any (tooMuchOverlap clip) then sel else sel ++ [clip]

/-- The greedy selection loop of `_suggest_clips` (lines 256-271): walk the
score-sorted pool, accept via `greedyStep`, and stop as soon as
`len(selected) >= top_n` after an iteration. -/
def greedyLoop (topN : ℤ) : List Clip → List Clip → List Clip
  | [], sel => sel
  | clip :: rest, sel =>
      if topN ≤ ((greedyStep clip sel).length : ℤ) then greedyStep clip sel
      else greedyLoop topN rest (greedyStep clip sel)

/-- Deduplication/selection phase of `_suggest_clips`: sort by score descending
(stable), greedily select, then sort the result by start time ascending. -/
def selectTop (clips : List Clip) (topN : ℤ) : List Clip :=
  List.insertionSort startLE (greedyLoop topN (List.insertionSort scoreGE clips) [])

/-- Full `_suggest_clips`: generate candidates, then select. -/
def suggestClips (segments : List Segment) (energyScores : Option (List ℚ))
    (topN : ℤ) (minDur maxDur : ℚ) : List Clip :=
  selectTop (genCandidates segments energyScores minDur maxDur) topN

/-- A word-level timestamp (`{"word", "start", "end"}`); `end` is `stop` here
because `end` is a Lean keyword. -/
structure Word where
  word : String
  start : ℚ
  stop : ℚ
deriving DecidableEq

instance : Inhabited Word := ⟨⟨"", 0, 0⟩⟩

/-- The `_FILLER_WORDS` set of `backend/services/clip_generator.py`. -/
def FILLER_WORDS : List String :=
  ["um", "uh", "uhh", "uhm", "umm", "hmm", "hm", "mhm", "ah", "er", "erm", "eh"]

/-- The punctuation set stripped from a word before the filler lookup:
period, comma, bang, question mark, semicolon, colon, hyphen, en dash,
em dash, apostrophe (0x27), double quote (0x22). -/
def STRIP_CHARS : List Char :=
  ['.', ',', '!', '?', ';', ':', '-', Char.ofNat 0x2013, Char.ofNat 0x2014,
   Char.ofNat 0x27, Char.ofNat 0x22]

/-- Python's `s.strip(chars)`: drop leading and trailing characters from `cs`. -/
def stripPy (cs : List Char) (s : String) : String :=
  ⟨((s.data.dropWhile (cs.contains ·)).reverse.dropWhile (cs.contains ·)).reverse⟩

/-- Step 1 of `_clean_transcript_words`: is `w` a standalone filler word? -/
def isFiller (w : Word) : Bool :=
  let text := w.word.trim
  let bare := stripPy STRIP_CHARS text.toLower
  FILLER_WORDS.contains bare

/-- The words that survive filler removal. -/
def removeFillers (ws : List Word) : List Word := ws.filter (fun w => ¬isFiller w)

/-- Shift a word's timestamps `d` seconds earlier; text and duration unchanged. -/
def shiftWord (d : ℚ) (w : Word) : Word := { w with start := w.start - d, stop := w.stop - d }

/-- The accumulated time shift after looking at the gap between `prev` and
`w`: gaps larger than `MAX_GAP = 1.5` grow the shift by `gap - COMPRESSED_GAP`
with `COMPRESSED_GAP = 0.3`. -/
def gapShift (prev : Word) (shift : ℚ) (w : Word) : ℚ :=
  if 3/2 < w.start - prev.stop then shift + (w.start - prev.stop - 3/10) else shift

/-- Step 2 of `_clean_transcript_words` from the second word on: `prev` is the
previous word with its ORIGINAL timestamps, `shift` the accumulated time
shift; every word is emitted shifted by the accumulated total. -/
def compressGo (prev : Word) (shift : ℚ) : List Word → List Word
  | [] => []
  | w :: rest =>
      shiftWord (gapShift prev shift w) w :: compressGo w (gapShift prev shift w) rest

/-- Model of `_clean_transcript_words`: remove fillers, keep the first retained word
verbatim, compress large inter-word gaps by cumulative forward time shift. -/
def cleanTranscriptWords (ws : List Word) : List Word :=
  match removeFillers ws with
  | [] => []
  | c0 :: rest => c0 :: compressGo c0 0 rest

/-- A caption style record from `backend/config/caption_styles.py`.  Only the
fields read by the header builder and the four renderers are modelled. -/
structure Style where
  font_name : String
  font_size : ℕ
  primary_color : String
  active_color : Option String
  outline_color : String
  back_color : String
  active_box_color : Option String
  bold : Bool
  outline_width : ℕ
  shadow_depth : ℕ
  border_style : Option ℕ
  alignment : ℕ
  margin_v : ℕ
  words_per_chunk : ℕ
  uppercase : Bool
deriving DecidableEq

/-- The font probe `_detect_font` queries fontconfig at runtime; the probe is environment
state, not source semantics.  It is modelled as its first candidate and
documented fallback, `"Arial"`. -/
def DETECTED_FONT : String := "Arial"

/-- The `"hormozi"` entry of `STYLES`. -/
def hormoziStyle : Style :=
  { font_name := DETECTED_FONT, font_size := 80,
    primary_color := "&H00FFFFFF", active_color := some "&H0000FFFF",
    outline_color := "&H00000000", back_color := "&H80000000",
    active_box_color := some "&H00000000",
    bold := true, outline_width := 0, shadow_depth := 0, border_style := some 3,
    alignment := 2, margin_v := 180, words_per_chunk := 3, uppercase := true }

/-- The `"karaoke"` entry of `STYLES`. -/
def karaokeStyle : Style :=
  { font_name := DETECTED_FONT, font_size := 60,
    primary_color := "&H00808080", active_color := some "&H00FFFFFF",
    outline_color := "&H00000000", back_color := "&H80000000",
    active_box_color := none,
    bold := false, outline_width := 3, shadow_depth := 1, border_style := none,
    alignment := 2, margin_v := 160, words_per_chunk := 5, uppercase := false }

/-- The `"subtle"` entry of `STYLES`. -/
def subtleStyle : Style :=
  { font_name := DETECTED_FONT, font_size := 52,
    primary_color := "&H00FFFFFF", active_color := none,
    outline_color := "&H00000000", back_color := "&H80000000",
    active_box_color := none,
    bold := false, outline_width := 2, shadow_depth := 2, border_style := none,
    alignment := 2, margin_v := 100, words_per_chunk := 5, uppercase := false }

/-- The `"branded"` entry of `STYLES`. -/
def brandedStyle : Style :=
  { font_name := DETECTED_FONT, font_size := 90,
    primary_color := "&H00FFFFFF", active_color := some "&H00FFFFFF",
    outline_color := "&H00000000", back_color := "&H00000000",
    active_box_color := some "&H00181818",
    bold := true, outline_width := 0, shadow_depth := 0, border_style := none,
    alignment := 2, margin_v := 360, words_per_chunk := 4, uppercase := false }

/-- Model of `get_style`: `none` models the `ValueError` raised on an unknown name. -/
def getStyle (name : String) : Option Style :=
  if name = "hormozi" then some hormoziStyle
  else if name = "karaoke" then some karaokeStyle
  else if name = "subtle" then some subtleStyle
  else if name = "branded" then some brandedStyle
  else none

/-- The `generate_ass_header` text of `caption_renderer.py`, line by line
(the multi-line f-string is modelled as its list of lines). -/
def assHeaderLines (st : Style) : List String :=
  ["[Script Info]",
   "Title: Podcast Clip Captions",
   "ScriptType: v4.00+",
   "PlayResX: 1080",
   "PlayResY: 1920",
   "WrapStyle: 0",
   "ScaledBorderAndShadow: yes",
   "",
   "[V4+ Styles]",
   "Format: Name, Fontname, Fontsize, PrimaryColour, SecondaryColour, OutlineColour, BackColour, Bold, Italic, Underline, StrikeOut, ScaleX, ScaleY, Spacing, Angle, BorderStyle, Outline, Shadow, Alignment, MarginL, MarginR, MarginV, Encoding",
   "Style: Default," ++ st.font_name ++ "," ++ toString st.font_size ++ "," ++
     st.primary_color ++ "," ++ st.primary_color ++ "," ++ st.outline_color ++ "," ++
     st.back_color ++ "," ++ toString (if st.bold then (-1 : ℤ) else 0) ++
     ",0,0,0,100,100,0,0," ++ toString (st.border_style.getD 1) ++ "," ++
     toString st.outline_width ++ "," ++ toString st.shadow_depth ++ "," ++
     toString st.alignment ++ ",40,40," ++ toString st.margin_v ++ ",1",
   "",
   "[Events]",
   "Format: Layer, Start, End, Style, Name, MarginL, MarginR, MarginV, Effect, Text"]

/-- The `generate_branded_header` text, line by line. -/
def brandedHeaderLines (st : Style) : List String :=
  ["[Script Info]",
   "Title: Podcast Clip Captions (Branded)",
   "ScriptType: v4.00+",
   "PlayResX: 1080",
   "PlayResY: 1920",
   "WrapStyle: 0",
   "ScaledBorderAndShadow: yes",
   "",
   "[V4+ Styles]",
   "Format: Name, Fontname, Fontsize, PrimaryColour, SecondaryColour, OutlineColour, BackColour, Bold, Italic, Underline, StrikeOut, ScaleX, ScaleY, Spacing, Angle, BorderStyle, Outline, Shadow, Alignment, MarginL, MarginR, MarginV, Encoding",
   "Style: BrandedNormal," ++ st.font_name ++ "," ++ toString st.font_size ++
     ",&H00FFFFFF,&H00FFFFFF,&H00000000,&H00000000,-1,0,0,0,100,100,0,0,3,0,0," ++
     toString st.alignment ++ ",80,80," ++ toString st.margin_v ++ ",1",
   "",
   "[Events]",
   "Format: Layer, Start, End, Style, Name, MarginL, MarginR, MarginV, Effect, Text"]

/-- Model of `_sanitize_words`: drop empty-text words, trim text, enforce the 50 ms
minimum word duration. -/
def sanitizeWords (ws : List Word) : List Word :=
  ws.filterMap fun w =>
    let text := w.word.trim
    if text.isEmpty then none
    else
      let start := w.start
      let stop :=
        if w.stop ≤ start then start + 1/20
        else if w.stop - start < 1/20 then start + 1/20
        else w.stop
      some { word := text, start := start, stop := stop }

/-- Zero-padded two-digit decimal. -/
def fmt2 (n : ℕ) : String := if n < 10 then "0" ++ toString n else toString n

/-- Python float modulo with a positive modulus (`a % b`, result in `[0, b)`). -/
def floorMod (a b : ℚ) : ℚ := a - b * ⌊a / b⌋

/-- Model of `seconds_to_ass` from `backend/utils/timing_utils.py`: `H:MM:SS.cc`.
The `%05.2f` float format is modelled as exact rational rounding to
centiseconds (half to even). -/
def secondsToAss (q : ℚ) : String :=
  let h : ℤ := ⌊q / 3600⌋
  let m : ℤ := ⌊floorMod q 3600 / 60⌋
  let cs : ℤ := pyRound (floorMod q 60 * 100)
  toString h ++ ":" ++ fmt2 m.toNat ++ ":" ++ fmt2 (cs.fdiv 100).toNat ++ "." ++
    fmt2 (cs.emod 100).toNat

/-- Python's `words[i : i + n]` chunking loop `for i in range(0, len(words), n)`. -/
def chunksOf (n : ℕ) (l : List Word) : List (List Word) :=
  (pyRange (l.length : ℤ) n).map fun i => (l.drop i).take n

/-- One `Dialogue:` event line. -/
def dialogueLine (styleName : String) (startTs endTs text : String) : String :=
  "Dialogue: 0," ++ startTs ++ "," ++ endTs ++ "," ++ styleName ++ ",,0,0,0,," ++ text

/-- Model of the `_render_hormozi` event lines: one event per fixed-size chunk with
progressive karaoke-fill markup per word. -/
def renderHormozi (words : List Word) (st : Style) (offset : ℚ) : List String :=
  (chunksOf st.words_per_chunk words).flatMap fun chunk =>
    if chunk.isEmpty then []
    else
      let chunkStart := max 0 ((chunk.headD default).start - offset)
      let chunkEnd := max 0 ((chunk.getLastD default).stop - offset)
      let parts := chunk.map fun w =>
        let durationCs := pyTrunc ((w.stop - w.start) * 100)
        let text := if st.uppercase then w.word.toUpper else w.word
        "\x7b\\kf" ++ toString durationCs ++ "\x7d" ++ text
      let lineText :=
        "\x7b\\c" ++ st.active_color.getD "None" ++ "\\2c" ++ st.primary_color ++ "\x7d" ++
          String.intercalate " " parts
      [dialogueLine "Default" (secondsToAss chunkStart) (secondsToAss chunkEnd) lineText]

/-- Model of the `_render_karaoke` event lines. -/
def renderKaraoke (words : List Word) (st : Style) (offset : ℚ) : List String :=
  (chunksOf st.words_per_chunk words).flatMap fun sentence =>
    if sentence.isEmpty then []
    else
      let sentStart := max 0 ((sentence.headD default).start - offset)
      let sentEnd := max 0 ((sentence.getLastD default).stop - offset)
      let parts := sentence.map fun w =>
        let durationCs := pyTrunc ((w.stop - w.start) * 100)
        "\x7b\\kf" ++ toString durationCs ++ "\x7d" ++ w.word
      let lineText :=
        "\x7b\\c" ++ st.active_color.getD "None" ++ "\x7d\x7b\\2c" ++ st.primary_color ++ "\x7d" ++
          String.intercalate " " parts
      [dialogueLine "Default" (secondsToAss sentStart) (secondsToAss sentEnd) lineText]

/-- Model of the `_render_subtle` event lines. -/
def renderSubtle (words : List Word) (st : Style) (offset : ℚ) : List String :=
  (chunksOf st.words_per_chunk words).flatMap fun lineWords =>
    if lineWords.isEmpty then []
    else
      let lineStart := max 0 ((lineWords.headD default).start - offset)
      let lineEnd := max 0 ((lineWords.getLastD default).stop - offset)
      let lineText := String.intercalate " " (lineWords.map (·.word))
      [dialogueLine "Default" (secondsToAss lineStart) (secondsToAss lineEnd) lineText]

/-- Python's `str.isupper`, restricted to treating alphabetic characters as
the cased ones. -/
def pyIsUpper (s : String) : Bool :=
  s.data.any (·.isAlpha) && s.data.all fun c => ¬c.isAlpha || c.isUpper

/-- Model of `_normalize_case`: lowercase a word unless it is an acronym or an
I-contraction. -/
def normalizeCase (text : String) : String :=
  let stripped := stripPy STRIP_CHARS text
  if pyIsUpper stripped ∧ 2 ≤ stripped.length then text
  else if stripped = "I" ∨ stripped = "I'm" ∨ stripped.startsWith "I'" then text
  else text.toLower

/-- Model of the `_render_branded` event lines: per word of each chunk, one event for that
word's active window with a box override on the active word. -/
def renderBranded (words : List Word) (st : Style) (offset : ℚ) : List String :=
  let rawBox := st.active_box_color.getD "&H00181818"
  let boxColor := if rawBox.endsWith "&" then rawBox else rawBox ++ "&"
  (chunksOf st.words_per_chunk words).flatMap fun chunk =>
    if chunk.isEmpty then []
    else
      let normalized := chunk.enum.map fun (j, w) =>
        let text := normalizeCase w.word
        if j = 0 then
          if 1 < text.length then text.front.toUpper.toString ++ text.drop 1 else text.toUpper
        else text
      chunk.enum.flatMap fun (wi, w) =>
        let wStart := max 0 (w.start - offset)
        let wEnd := max 0 (w.stop - offset)
        if wEnd ≤ wStart then []
        else
          let parts := normalized.enum.map fun (wj, text) =>
            if wj = wi then
              "\x7b\\4c" ++ boxColor ++ "\\3c" ++ boxColor ++
                "\\xbord14\\ybord8\\bord1\\shad0\x7d" ++ text ++
                "\x7b\\4c&H00000000&\\3c&H00000000&\\xbord0\\ybord0\\bord0\x7d"
            else text
          [dialogueLine "BrandedNormal" (secondsToAss wStart) (secondsToAss wEnd)
            (String.intercalate " " parts)]

/-- The subtitle artifact written by `render_captions`: header lines followed
by event lines (the file text is the lines joined with newlines). -/
structure AssFile where
  header : List String
  events : List String
deriving DecidableEq

/-- Model of `render_captions`: sanitize, emit a header-only file when no word
survives, otherwise dispatch on the style name.  `none` models the
`ValueError` paths of `get_style` and the final `else`. -/
def renderCaptions (words : List Word) (captionStyle : String) (timeOffset : ℚ) :
    Option AssFile :=
  let ws := sanitizeWords words
  if ws.isEmpty then
    (getStyle captionStyle).map fun st => ⟨assHeaderLines st, []⟩
  else
    match getStyle captionStyle with
    | none => none
    | some st =>
        if captionStyle = "hormozi" then some ⟨assHeaderLines st, renderHormozi ws st timeOffset⟩
        else if captionStyle = "karaoke" then some ⟨assHeaderLines st, renderKaraoke ws st timeOffset⟩
        else if captionStyle = "subtle" then some ⟨assHeaderLines st, renderSubtle ws st timeOffset⟩
        else if captionStyle = "branded" then some ⟨brandedHeaderLines st, renderBranded ws st timeOffset⟩
        else none

/-- A syntactically usable empty ASS document: the three section headers are
present, a style is declared, the events section ends with its `Format:`
line, and there is no `Dialogue:` event. -/
def validEmptyAss (doc : AssFile) : Prop :=
  "[Script Info]" ∈ doc.header ∧
  "[V4+ Styles]" ∈ doc.header ∧
  "[Events]" ∈ doc.header ∧
  1 ≤ doc.header.countP (fun l => l.startsWith "Style: ") ∧
  doc.header.getLast? =
    some "Format: Layer, Start, End, Style, Name, MarginL, MarginR, MarginV, Effect, Text" ∧
  doc.header.countP (fun l => l.startsWith "Dialogue:") = 0 ∧
  doc.events = []

instance (doc : AssFile) : Decidable (validEmptyAss doc) := by
  unfold validEmptyAss
  infer_instance

/-- One audio energy sample (`{"time", "rms_db"}`) from `audio_analyzer.py`. -/
structure ESample where
  time : ℚ
  rms_db : ℚ
deriving DecidableEq

/-- Model of `compute_energy_scores` from `backend/services/audio_analyzer.py`.

The one float operation with no exact rational counterpart, the standard
deviation's `** 0.5`, is abstracted as the parameter `sqrtFn`; every theorem
below holds for every choice of `sqrtFn`, hence in particular for float
square root.  All other float arithmetic is exact rational arithmetic. -/
def computeEnergyScores (sqrtFn : ℚ → ℚ) (energyData : List ESample)
    (segments : List Segment) : List ℚ :=
  if energyData.isEmpty then segments.map fun _ => 0
  else
    let rmsValues := energyData.map (·.rms_db)
    if rmsValues.isEmpty then segments.map fun _ => 0
    else
      let validRms := rmsValues.filter (fun r => -60 < r)
      if validRms.isEmpty then segments.map fun _ => 0
      else
        let meanRms := validRms.sum / validRms.length
        let stdRms := max (sqrtFn ((validRms.map fun r => (r - meanRms) ^ 2).sum / validRms.length)) (1/10)
        segments.map fun seg =>
          let segRms := energyData.filterMap fun e =>
            if seg.start ≤ e.time ∧ e.time ≤ seg.stop ∧ -60 < e.rms_db then some e.rms_db else none
          if segRms.isEmpty then 0
          else
            let avgRms := segRms.sum / segRms.length
            let peakRms := listMax segRms
            let zAvg := (avgRms - meanRms) / stdRms
            let zPeak := (peakRms - meanRms) / stdRms
            let rawScore := zAvg * (4/10) + zPeak * (6/10)
            pyRound2 (max 0 (min 10 ((rawScore + 1) * 3)))

/-- The crop decision taken by the `center` strategy of `crop_to_vertical`
(ffmpeg execution abstracted away; the three branches carry the numbers put
into the `-vf` filter). -/
inductive CropPlan where
  | sides (cropW cropH cropX : ℤ)
  | topBottom (cropW cropH cropY : ℤ)
  | letterbox
deriving DecidableEq

/-- The `center` strategy of `crop_to_vertical` (`video_processor.py`
lines 107-139): target 1080x1920, ratio comparisons and `int()` truncation
as in the source. -/
def centerCropPlan (width height : ℤ) : CropPlan :=
  let targetRatio : ℚ := 1080 / 1920
  let sourceRatio : ℚ := (width : ℚ) / (height : ℚ)
  if targetRatio < sourceRatio then
    let cropH := height
    let cropW := pyTrunc ((cropH : ℚ) * targetRatio)
    CropPlan.sides cropW cropH ((width - cropW).fdiv 2)
  else
    let cropW := width
    let cropH := pyTrunc ((cropW : ℚ) / targetRatio)
    if height < cropH then CropPlan.letterbox
    else CropPlan.topBottom cropW cropH ((height - cropH).fdiv 2)

/-- Model of `np.median` on a list of integer positions: middle of the sorted list,
mean of the two middle elements for even length (`0` on `[]`, unreachable). -/
def npMedian (l : List ℤ) : ℚ :=
  let s := List.insertionSort (fun a b : ℤ => a ≤ b) l
  let n := s.length
  if n = 0 then 0
  else if n % 2 = 1 then ((s.getD (n / 2) 0 : ℤ) : ℚ)
  else (((s.getD (n / 2 - 1) 0 + s.getD (n / 2) 0 : ℤ) : ℚ)) / 2

/-- The greedy radius clustering of `_detect_face_offset` (lines 536-548):
repeatedly seed at the smallest unused position and absorb every unused
position within `radius`; cluster members keep their original order.  `fuel`
bounds the rounds (the Python loop visits each position at most once); when
`radius ≤ 0` every mask is empty and no cluster is ever appended. -/
def buildClustersFuel (radius : ℚ) : ℕ → List ℤ → List (List ℤ)
  | 0, _ => []
  | _, [] => []
  | n + 1, p :: ps =>
      let seed := ps.foldl min p
      let cluster := (p :: ps).filter fun x => |((x : ℤ) : ℚ) - ((seed : ℤ) : ℚ)| < radius
      let rest := (p :: ps).filter fun x => ¬(|((x : ℤ) : ℚ) - ((seed : ℤ) : ℚ)| < radius)
      if cluster.isEmpty then []
      else cluster :: buildClustersFuel radius n rest

/-- Cluster size comparison for `clusters.sort(key=len, reverse=True)`
(stable, size descending). -/
def sizeGE (a b : List ℤ) : Prop := b.length ≤ a.length

instance : DecidableRel sizeGE := fun a b => inferInstanceAs (Decidable (b.length ≤ a.length))

instance : IsTotal (List ℤ) sizeGE := ⟨fun a b => le_total b.length a.length⟩

instance : IsTrans (List ℤ) sizeGE := ⟨fun _ _ _ h1 h2 => le_trans h2 h1⟩

/-- The face-strategy crop width `crop_w = int(height * target_ratio)` with target ratio 1080/1920. -/
def faceCropW (height : ℤ) : ℤ := pyTrunc ((height : ℚ) * (1080 / 1920))

/-- The size-sorted cluster list computed by `_detect_face_offset` for a given
position sample list (including the `if not clusters: clusters = [positions]`
fallback). -/
def sortedClusters (positions : List ℤ) (height : ℤ) : List (List ℤ) :=
  let radius := (faceCropW height : ℚ) * (1/4)
  let cs := buildClustersFuel radius positions.length positions
  List.insertionSort sizeGE (if cs.isEmpty then [positions] else cs)

/-- Cluster selection and final clamping of `_detect_face_offset`
(lines 550-574), given the position samples collected from the detector.
Returns `none` exactly when no position was sampled. -/
def detectFaceOffset (positions : List ℤ) (width height : ℤ) : Option ℤ :=
  if positions.isEmpty then none
  else
    let cropW := faceCropW height
    let best :=
      match sortedClusters positions height with
      | [] => []
      | [c] => c
      | c0 :: c1 :: _ =>
          if (c1.length : ℚ) * (3/2) < (c0.length : ℚ) then c0
          else if |npMedian c1 - (width : ℚ) / 2| < |npMedian c0 - (width : ℚ) / 2| then c1
          else c0
    let avgFaceX := pyTrunc (npMedian best)
    let cropX := avgFaceX - cropW.fdiv 2
    some (max 0 (min cropX (width - cropW)))

/-- The dominant-cluster choice as the specification words it (with the
strict `more than 1.5x` reading the code implements): take the largest
cluster when it strictly dominates the runner-up by a factor of 1.5,
otherwise whichever of the top two clusters has its median closer to the
frame's horizontal center (the larger one when equally close). -/
def specChosenCluster (clusters : List (List ℤ)) (width : ℤ) : List ℤ :=
  match clusters with
  | [] => []
  | [c] => c
  | c0 :: c1 :: _ =>
      if (c1.length : ℚ) * (3/2) < (c0.length : ℚ) then c0
      else if |npMedian c1 - (width : ℚ) / 2| < |npMedian c0 - (width : ℚ) / 2| then c1
      else c0

/-- The pipeline effects of `generate_clip` that the validation claims talk
about: scratch-directory creation and the transform stages, in program order. -/
inductive PipelineEffect where
  | createWorkDir
  | trim
  | crop
  | caption
  | normalize
  | concatOutro
  | finalize
deriving DecidableEq

/-- The errors `generate_clip` can raise before any stage runs. -/
inductive ClipRequestError where
  | videoNotFound
  | invalidRange
  | tooLong
  | unknownStyle
deriving DecidableEq

/-- Control-flow model of `generate_clip` (`clip_generator.py` lines 118-221):
validation in source order, then the work-directory creation and the stage
sequence.  Filesystem state is abstracted to `videoExists`; stage execution
is abstracted to the ordered effect list (each stage may itself fail later,
which is irrelevant to the validation claims). -/
def generateClipModel (videoExists : Bool) (startSecond endSecond : ℚ)
    (captionStyle : String) (hasWords hasOutro : Bool) :
    List PipelineEffect × Option ClipRequestError :=
  if videoExists = false then ([], some ClipRequestError.videoNotFound)
  else if endSecond ≤ startSecond then ([], some ClipRequestError.invalidRange)
  else if 180 < endSecond - startSecond then ([], some ClipRequestError.tooLong)
  else if (getStyle captionStyle).isNone then ([], some ClipRequestError.unknownStyle)
  else
    ([PipelineEffect.createWorkDir, PipelineEffect.trim, PipelineEffect.crop] ++
      (if hasWords then [PipelineEffect.caption] else []) ++
      [PipelineEffect.normalize] ++
      (if hasOutro then [PipelineEffect.concatOutro] else []) ++
      [PipelineEffect.finalize], none)

/-- The no-excess-overlap relation that greedy selection enforces between an
earlier-accepted clip and a later-considered one: the later clip does not
overlap the earlier one by more than 50% of the later clip's own duration. -/
def noExcessOverlap (earlier later : Clip) : Prop := tooMuchOverlap later earlier = false

/-- Consecutive-gap contract between an original word list and its
gap-compressed counterpart, walked in lockstep: each compressed gap is at most
the original gap, stays nonnegative when the original gap was, and equals
exactly 0.3 s when the original gap exceeded 1.5 s. -/
def gapsOK : List Word → List Word → Prop
  | o1 :: o2 :: os, n1 :: n2 :: ns =>
      (n2.start - n1.stop ≤ o2.start - o1.stop) ∧
      (0 ≤ o2.start - o1.stop → 0 ≤ n2.start - n1.stop) ∧
      (3/2 < o2.start - o1.stop → n2.start - n1.stop = 3/10) ∧
      gapsOK (o2 :: os) (n2 :: ns)
  | _, _ => True

end Podcli

namespace Podcli

theorem pyRound_ge (q : ℚ) : q - 1/2 ≤ (pyRound q : ℚ) := by
  unfold pyRound
  have hf : (⌊q⌋ : ℚ) ≤ q := Int.floor_le q
  have hf2 : q < (⌊q⌋ : ℚ) + 1 := Int.lt_floor_add_one q
  split_ifs with h1 h2 h3 <;> push_cast <;> linarith

theorem pyRound_le (q : ℚ) : (pyRound q : ℚ) ≤ q + 1/2 := by
  unfold pyRound
  have hf : (⌊q⌋ : ℚ) ≤ q := Int.floor_le q
  have hf2 : q < (⌊q⌋ : ℚ) + 1 := Int.lt_floor_add_one q
  split_ifs with h1 h2 h3 <;> push_cast <;> linarith

/-- An integer lower bound survives banker's rounding. -/
theorem le_pyRound_of_int_le {m : ℤ} {q : ℚ} (h : (m : ℚ) ≤ q) : m ≤ pyRound q := by
  have h2 : ((m - 1 : ℤ) : ℚ) < (pyRound q : ℚ) := by
    push_cast
    linarith [pyRound_ge q]
  have h3 : (m - 1 : ℤ) < pyRound q := by exact_mod_cast h2
  omega

/-- An integer upper bound survives banker's rounding. -/
theorem pyRound_le_of_le_int {m : ℤ} {q : ℚ} (h : q ≤ (m : ℚ)) : pyRound q ≤ m := by
  have h2 : (pyRound q : ℚ) < ((m + 1 : ℤ) : ℚ) := by
    push_cast
    linarith [pyRound_le q]
  have h3 : pyRound q < m + 1 := by exact_mod_cast h2
  omega

theorem pyRound2_nonneg {q : ℚ} (h : 0 ≤ q) : 0 ≤ pyRound2 q := by
  unfold pyRound2
  have : (0 : ℤ) ≤ pyRound (q * 100) := le_pyRound_of_int_le (by push_cast; linarith)
  positivity

theorem pyRound2_le_ten {q : ℚ} (h : q ≤ 10) : pyRound2 q ≤ 10 := by
  unfold pyRound2
  have h1 : pyRound (q * 100) ≤ (1000 : ℤ) := pyRound_le_of_le_int (by push_cast; linarith)
  have h2 : (pyRound (q * 100) : ℚ) ≤ 1000 := by exact_mod_cast h1
  linarith

/-- Python's `range(0, n, step)` is empty when `n ≤ 0`. -/
theorem pyRange_eq_nil {n : ℤ} (step : ℕ) (h : n ≤ 0) : pyRange n step = [] := by
  unfold pyRange
  have h0 : n.toNat = 0 := Int.toNat_of_nonpos h
  rw [h0]
  have : (0 + step - 1) / step = 0 := by
    rcases Nat.eq_zero_or_pos step with h1 | h1
    · simp [h1]
    · exact Nat.div_eq_of_lt (by omega)
  rw [this]
  rfl

/-- C1 (amended). The sliding windows of `_suggest_clips` have sizes 6, 8, 10
and 12 segments and a window at index `i` exists only for
`i < len(segments) - win_size`, so any transcript with at most 6 segments —
in particular the two-segment "secret"/"changed" scenario — produces an empty
candidate pool and an empty clip list, never a candidate of score at least 3. -/
theorem C1_small_transcript_yields_no_candidates
    (segments : List Segment) (energyScores : Option (List ℚ)) (topN : ℤ)
    (minDur maxDur : ℚ) (h : segments.length ≤ 6) :
    genCandidates segments energyScores minDur maxDur = [] ∧
    suggestClips segments energyScores topN minDur maxDur = [] := by
  have hgen : genCandidates segments energyScores minDur maxDur = [] := by
    have hlen : ∀ w : ℕ, 6 ≤ w → ((segments.length : ℤ) - (w : ℤ)) ≤ 0 := by
      intro w hw
      have : (segments.length : ℤ) ≤ 6 := by exact_mod_cast h
      omega
    unfold genCandidates
    rw [List.eq_nil_iff_forall_not_mem]
    intro c hc
    rw [List.mem_flatMap] at hc
    obtain ⟨w, hw, hcw⟩ := hc
    have h6 : 6 ≤ w := by fin_cases hw <;> norm_num
    rw [pyRange_eq_nil _ (hlen w h6)] at hcw
    simp at hcw
  refine ⟨hgen, ?_⟩
  unfold suggestClips
  rw [hgen]
  rfl

/-- C1 counterexample: on exactly the transcript of the claim, with
`min_dur = 5` and `max_dur = 20`, `_suggest_clips` yields no candidate at all
(shown for the default `top_n = 5`), so no candidate contains "secret" and
"changed" with score at least 3. -/
theorem C1_counterexample :
    genCandidates
      [⟨"Let me tell you the secret", 0, 5⟩, ⟨"that changed everything", 5, 15⟩]
      none 5 20 = [] ∧
    suggestClips
      [⟨"Let me tell you the secret", 0, 5⟩, ⟨"that changed everything", 5, 15⟩]
      none 5 5 20 = [] := by
  constructor <;> with_unfolding_all decide

/-- Unfolding equation for the cons case of the selection loop. -/
theorem greedyLoop_cons (topN : ℤ) (clip : Clip) (rest sel : List Clip) :
    greedyLoop topN (clip :: rest) sel =
      if topN ≤ ((greedyStep clip sel).length : ℤ) then greedyStep clip sel
      else greedyLoop topN rest (greedyStep clip sel) := rfl

/-- One step grows the accepted list by at most one clip. -/
theorem greedyStep_length_le (clip : Clip) (sel : List Clip) :
    (greedyStep clip sel).length ≤ sel.length + 1 := by
  unfold greedyStep
  split
  · omega
  · simp

/-- One step preserves the pairwise overlap contract. -/
theorem greedyStep_pairwise (clip : Clip) (sel : List Clip)
    (h : sel.Pairwise noExcessOverlap) :
    (greedyStep clip sel).Pairwise noExcessOverlap := by
  unfold greedyStep
  split
  · exact h
  · rename_i hov
    rw [List.pairwise_append]
    refine ⟨h, by simp, ?_⟩
    intro a ha b hb
    rw [List.mem_singleton] at hb
    rw [hb]
    have hall : ¬ (sel.any (tooMuchOverlap clip) = true) := by simpa using hov
    rw [List.any_eq_true] at hall
    push_neg at hall
    have := hall a ha
    unfold noExcessOverlap
    simpa using this

/-- Starting strictly below `topN`, the selection loop never exceeds `topN`
accepted clips. -/
theorem greedyLoop_length_le (topN : ℤ) :
    ∀ l sel : List Clip, (sel.length : ℤ) < topN →
      ((greedyLoop topN l sel).length : ℤ) ≤ topN := by
  intro l
  induction l with
  | nil => intro sel h; exact le_of_lt h
  | cons clip rest ih =>
      intro sel h
      rw [greedyLoop_cons]
      have hlen2 : ((greedyStep clip sel).length : ℤ) ≤ (sel.length : ℤ) + 1 := by
        have := greedyStep_length_le clip sel
        omega
      split
      · omega
      · rename_i hlt
        exact ih _ (by omega)

/-- Every clip kept by the selection loop passes the overlap test against all
clips accepted before it. -/
theorem greedyLoop_pairwise (topN : ℤ) :
    ∀ l sel : List Clip, sel.Pairwise noExcessOverlap →
      (greedyLoop topN l sel).Pairwise noExcessOverlap := by
  intro l
  induction l with
  | nil => intro sel h; exact h
  | cons clip rest ih =>
      intro sel h
      rw [greedyLoop_cons]
      split
      · exact greedyStep_pairwise clip sel h
      · exact ih _ (greedyStep_pairwise clip sel h)

/-- C2 (amended).  For every pooled candidate list and every `top_n ≥ 1`, the
clip set returned by the selection phase of `_suggest_clips` has at most
`top_n` clips, is sorted by start time ascending, is a permutation of the
greedily accepted list, and in that list no clip overlaps a clip accepted
before it (in descending-score consideration order) by more than 50% of its
own duration.  (For `top_n ≤ 0` the bound fails: the loop appends before it
checks the bound, see the counterexample.) -/
theorem C2_selection_bounded_sorted_nonoverlapping (clips : List Clip) (topN : ℤ)
    (h : 1 ≤ topN) :
    ((selectTop clips topN).length : ℤ) ≤ topN ∧
    List.Sorted startLE (selectTop clips topN) ∧
    (greedyLoop topN (List.insertionSort scoreGE clips) []).Pairwise noExcessOverlap ∧
    (selectTop clips topN).Perm (greedyLoop topN (List.insertionSort scoreGE clips) []) := by
  have hlen := greedyLoop_length_le topN (List.insertionSort scoreGE clips) []
    (by simp; omega)
  refine ⟨?_, List.sorted_insertionSort _ _,
    greedyLoop_pairwise topN _ [] List.Pairwise.nil, List.perm_insertionSort _ _⟩
  unfold selectTop
  rw [(List.perm_insertionSort startLE _).length_eq]
  exact hlen

/-- C2 witness: the amended theorem at a one-candidate pool and `top_n = 1`. -/
theorem C2_witness :
    ((selectTop [⟨"t", 0, 10, 10, 5, "p"⟩] 1).length : ℤ) ≤ 1 ∧
    List.Sorted startLE (selectTop [⟨"t", 0, 10, 10, 5, "p"⟩] 1) ∧
    (greedyLoop 1 (List.insertionSort scoreGE [⟨"t", 0, 10, 10, 5, "p"⟩]) []).Pairwise
      noExcessOverlap ∧
    (selectTop [⟨"t", 0, 10, 10, 5, "p"⟩] 1).Perm
      (greedyLoop 1 (List.insertionSort scoreGE [⟨"t", 0, 10, 10, 5, "p"⟩]) []) :=
  C2_selection_bounded_sorted_nonoverlapping [⟨"t", 0, 10, 10, 5, "p"⟩] 1 (by norm_num)

/-- C2 counterexample: with `top_n = 0` and a nonempty pool the claim's
"at most top_n clips" fails — the loop appends the first candidate before
checking the bound, so one clip is returned. -/
theorem C2_counterexample :
    ¬ (((selectTop [⟨"t", 0, 10, 10, 5, "p"⟩] 0).length : ℤ) ≤ 0) := by
  with_unfolding_all decide

/-- C1 witness: the amended theorem applied to the claim's concrete scenario. -/
theorem C1_witness :
    genCandidates
      [⟨"Let me tell you the secret", 0, 5⟩, ⟨"that changed everything", 5, 15⟩]
      none 5 20 = [] ∧
    suggestClips
      [⟨"Let me tell you the secret", 0, 5⟩, ⟨"that changed everything", 5, 15⟩]
      none 3 5 20 = [] :=
  C1_small_transcript_yields_no_candidates _ none 3 5 20 (by decide)

/-- C3 (amended).  For integer `min_dur` and `max_dur`, every candidate
generated by `_suggest_clips` has its (rounded) `duration` field within
`[min_dur, max_dur]`; the bound on the rounded field can fail for fractional
`min_dur`/`max_dur` (see the counterexample), because the field is the true
window duration — which always satisfies the bound exactly — rounded to the
nearest integer. -/
theorem C3_duration_field_bounds (minD maxD : ℤ) (segments : List Segment)
    (energyScores : Option (List ℚ)) (c : Clip)
    (hc : c ∈ genCandidates segments energyScores (minD : ℚ) (maxD : ℚ)) :
    minD ≤ c.duration ∧ c.duration ≤ maxD := by
  unfold genCandidates at hc
  rw [List.mem_flatMap] at hc
  obtain ⟨w, _, hcw⟩ := hc
  rw [List.mem_filterMap] at hcw
  obtain ⟨i, _, hcand⟩ := hcw
  unfold windowCandidate at hcand
  by_cases h1 : windowDur segments w i < (minD : ℚ) ∨ (maxD : ℚ) < windowDur segments w i
  · rw [if_pos h1] at hcand
    exact absurd hcand (by simp)
  · rw [if_neg h1] at hcand
    push_neg at h1
    obtain ⟨hlo, hhi⟩ := h1
    by_cases h2 : 3 ≤ windowScore segments energyScores w i
    · rw [if_pos h2] at hcand
      have hcc : windowClip segments energyScores w i = c := Option.some_inj.mp hcand
      rw [← hcc]
      exact ⟨le_pyRound_of_int_le hlo, pyRound_le_of_le_int hhi⟩
    · rw [if_neg h2] at hcand
      exact absurd hcand (by simp)

set_option maxRecDepth 100000 in
/-- C3 witness: in a seven-segment transcript with `min_dur = 5`,
`max_dur = 20`, the (unique) generated candidate's duration field obeys the
integer bounds. -/
theorem C3_witness :
    (5 : ℤ) ≤ ((genCandidates demoSegs7 none ((5 : ℤ) : ℚ) ((20 : ℤ) : ℚ)).headD
      default).duration ∧
    ((genCandidates demoSegs7 none ((5 : ℤ) : ℚ) ((20 : ℤ) : ℚ)).headD
      default).duration ≤ (20 : ℤ) :=
  C3_duration_field_bounds 5 20 demoSegs7 none
    ((genCandidates demoSegs7 none ((5 : ℤ) : ℚ) ((20 : ℤ) : ℚ)).headD default)
    (by with_unfolding_all decide)

set_option maxRecDepth 100000 in
/-- C3 counterexample: with fractional `min_dur = 6.3`, `max_dur = 20`, the
same transcript generates a candidate (its window spans 6.4 s, inside the
bounds) whose rounded duration field is 6, which is below `min_dur`. -/
theorem C3_counterexample :
    ((genCandidates demoSegs7 none (63/10) 20).headD default)
      ∈ genCandidates demoSegs7 none (63/10) 20 ∧
    ¬ ((63/10 : ℚ) ≤
        (((genCandidates demoSegs7 none (63/10) 20).headD default).duration : ℚ)) := by
  constructor <;> with_unfolding_all decide

/-- The gap-compression pass keeps the list length. -/
theorem compressGo_length (rest : List Word) :
    ∀ (prev : Word) (shift : ℚ), (compressGo prev shift rest).length = rest.length := by
  induction rest with
  | nil => intro prev shift; rfl
  | cons w rest' ih =>
      intro prev shift
      rw [compressGo]
      simp [ih]

/-- The accumulated shift never decreases. -/
theorem le_gapShift (prev : Word) (shift : ℚ) (w : Word) : shift ≤ gapShift prev shift w := by
  unfold gapShift
  split_ifs with hg
  · linarith
  · exact le_refl _

/-- Core gap contract of the compression fold, relative to the running shift. -/
theorem compressGo_gapsOK (rest : List Word) :
    ∀ (prev : Word) (shift : ℚ),
      gapsOK (prev :: rest) (shiftWord shift prev :: compressGo prev shift rest) := by
  induction rest with
  | nil => intro prev shift; trivial
  | cons w rest' ih =>
      intro prev shift
      rw [compressGo]
      refine ⟨?_, ?_, ?_, ih w (gapShift prev shift w)⟩
      · simp only [shiftWord, gapShift]
        split_ifs with hg <;> linarith
      · intro hnn
        simp only [shiftWord, gapShift]
        split_ifs with hg <;> linarith
      · intro hbig
        simp only [shiftWord, gapShift]
        split_ifs
        linarith

/-- C4 (amended).  For every input word list, the gap between two consecutive
retained words after `_clean_transcript_words` is at most the original gap
between those words, is nonnegative whenever the original gap was
nonnegative (an already-negative input gap is passed through unchanged, see
the counterexample), and equals exactly 0.3 s whenever the original gap
exceeded 1.5 s. -/
theorem C4_gap_compression (ws : List Word) :
    (cleanTranscriptWords ws).length = (removeFillers ws).length ∧
    gapsOK (removeFillers ws) (cleanTranscriptWords ws) := by
  unfold cleanTranscriptWords
  cases h : removeFillers ws with
  | nil => exact ⟨rfl, trivial⟩
  | cons c0 rest =>
      refine ⟨by simp [compressGo_length], ?_⟩
      have hmain := compressGo_gapsOK rest c0 0
      have h0 : shiftWord 0 c0 = c0 := by
        unfold shiftWord
        cases c0
        simp
      rwa [h0] at hmain

/-- C4 counterexample: two overlapping words (original gap −1 s) are passed
through unchanged, so the compressed gap is negative, refuting the claim's
unconditional "never negative". -/
theorem C4_counterexample :
    ((cleanTranscriptWords [⟨"a", 0, 2⟩, ⟨"b", 1, 3⟩]).getD 1 default).start -
      ((cleanTranscriptWords [⟨"a", 0, 2⟩, ⟨"b", 1, 3⟩]).getD 0 default).stop < 0 := by
  with_unfolding_all decide

/-- Each emitted word of the compression fold is its input word shifted by
some accumulated amount of at least the incoming shift. -/
theorem compressGo_getD (rest : List Word) :
    ∀ (prev : Word) (shift : ℚ) (i : ℕ), i < rest.length →
      ∃ d : ℚ, shift ≤ d ∧
        (compressGo prev shift rest).getD i default = shiftWord d (rest.getD i default) := by
  induction rest with
  | nil =>
      intro prev shift i hi
      exact absurd hi (by simp)
  | cons w rest' ih =>
      intro prev shift i hi
      rw [compressGo]
      cases i with
      | zero => exact ⟨gapShift prev shift w, le_gapShift prev shift w, rfl⟩
      | succ i' =>
          have hi' : i' < rest'.length := by simpa using hi
          obtain ⟨d, hd1, hd2⟩ := ih w (gapShift prev shift w) i' hi'
          exact ⟨d, le_trans (le_gapShift prev shift w) hd1, by simpa using hd2⟩

/-- C10 (confirmed).  `_clean_transcript_words` keeps one output word per
retained input word, in the same order: the i-th output word is the i-th
retained word with text and exact duration preserved, both timestamps moved
earlier by one common nonnegative shift, and the first retained word is kept
verbatim. -/
theorem C10_clean_words_frame (ws : List Word) :
    (cleanTranscriptWords ws).length = (removeFillers ws).length ∧
    (cleanTranscriptWords ws).head? = (removeFillers ws).head? ∧
    ∀ i, i < (cleanTranscriptWords ws).length →
      ∃ d : ℚ, 0 ≤ d ∧
        ((cleanTranscriptWords ws).getD i default).word =
          ((removeFillers ws).getD i default).word ∧
        ((cleanTranscriptWords ws).getD i default).stop -
            ((cleanTranscriptWords ws).getD i default).start =
          ((removeFillers ws).getD i default).stop -
            ((removeFillers ws).getD i default).start ∧
        (cleanTranscriptWords ws).getD i default =
          shiftWord d ((removeFillers ws).getD i default) := by
  unfold cleanTranscriptWords
  cases h : removeFillers ws with
  | nil =>
      refine ⟨rfl, rfl, ?_⟩
      intro i hi
      exact absurd hi (by simp)
  | cons c0 rest =>
      refine ⟨by simp [compressGo_length], rfl, ?_⟩
      intro i hi
      cases i with
      | zero =>
          refine ⟨0, le_refl 0, rfl, rfl, ?_⟩
          unfold shiftWord
          cases c0
          simp
      | succ i' =>
          have hi' : i' < rest.length := by
            have := compressGo_length rest c0 0
            simp at hi
            omega
          obtain ⟨d, hd1, hd2⟩ := compressGo_getD rest c0 0 i' hi'
          refine ⟨d, hd1, ?_, ?_, by simpa using hd2⟩
          · have : ((c0 :: compressGo c0 0 rest).getD (i' + 1) default) =
                shiftWord d (rest.getD i' default) := by simpa using hd2
            rw [this]
            simp [shiftWord]
          · have : ((c0 :: compressGo c0 0 rest).getD (i' + 1) default) =
                shiftWord d (rest.getD i' default) := by simpa using hd2
            rw [this]
            simp [shiftWord]

set_option maxRecDepth 100000 in
/-- C5 (amended).  For a 1920x1080 source with the center strategy,
`crop_to_vertical` takes the source-wider-than-target branch at full source
height; the crop width is `int(1080 * 9/16) = 607` — Python's `int()`
truncation, not `round` — and the crop x-offset 656 satisfies
`0 ≤ crop_x ≤ width - crop_width`. -/
theorem C5_center_crop_1920x1080 :
    centerCropPlan 1920 1080 = CropPlan.sides (pyTrunc ((1080 : ℚ) * (9/16))) 1080 656 ∧
    pyTrunc ((1080 : ℚ) * (9/16)) = 607 ∧
    (0 : ℤ) ≤ 656 ∧ (656 : ℤ) ≤ 1920 - 607 := by
  refine ⟨?_, ?_, ?_, ?_⟩ <;> with_unfolding_all decide

set_option maxRecDepth 100000 in
/-- C5 counterexample: the claim's crop width `round(1080 * 9/16)` is 608
(banker's rounding of 607.5), but the code truncates and produces 607. -/
theorem C5_counterexample :
    centerCropPlan 1920 1080 = CropPlan.sides 607 1080 656 ∧
    pyRound ((1080 : ℚ) * (9/16)) = 608 ∧
    (607 : ℤ) ≠ 608 := by
  refine ⟨?_, ?_, ?_⟩ <;> with_unfolding_all decide

/-- C6 (amended).  For every non-empty face-position sample list,
`_detect_face_offset` chooses among the size-sorted clusters exactly as the
specification describes — with "more than 1.5x the members" read strictly, as
the code's `>` does (at a ratio of exactly 1.5 the tiebreak branch runs, see
the counterexample): the largest cluster when it strictly dominates,
otherwise whichever of the top two clusters has its median closer to the
frame center — and returns that cluster's truncated median minus half the
crop width, clamped to `[0, width - crop_width]`. -/
theorem C6_face_cluster_selection (positions : List ℤ) (width height : ℤ)
    (h : positions ≠ []) :
    detectFaceOffset positions width height =
      some (max 0 (min
        (pyTrunc (npMedian (specChosenCluster (sortedClusters positions height) width)) -
          (faceCropW height).fdiv 2)
        (width - faceCropW height))) ∧
    ∀ r, detectFaceOffset positions width height = some r →
      0 ≤ r ∧ (faceCropW height ≤ width → r ≤ width - faceCropW height) := by
  have hne : ¬(positions.isEmpty = true) := by
    simpa [List.isEmpty_iff] using h
  have hmain : detectFaceOffset positions width height =
      some (max 0 (min
        (pyTrunc (npMedian (specChosenCluster (sortedClusters positions height) width)) -
          (faceCropW height).fdiv 2)
        (width - faceCropW height))) := by
    unfold detectFaceOffset specChosenCluster
    rw [if_neg hne]
  refine ⟨hmain, ?_⟩
  intro r hr
  rw [hmain, Option.some_inj] at hr
  constructor
  · rw [← hr]
    exact le_max_left 0 _
  · intro hcw
    rw [← hr]
    exact max_le (by omega) (min_le_right _ _)

/-- C6 witness: six samples in two clusters of sizes 4 and 2 (strictly
dominant ratio 2), frame 1000x1000. -/
theorem C6_witness :
    detectFaceOffset [100, 100, 100, 100, 500, 500] 1000 1000 =
      some (max 0 (min
        (pyTrunc (npMedian (specChosenCluster
          (sortedClusters [100, 100, 100, 100, 500, 500] 1000) 1000)) -
          (faceCropW 1000).fdiv 2)
        (1000 - faceCropW 1000))) ∧
    ∀ r, detectFaceOffset [100, 100, 100, 100, 500, 500] 1000 1000 = some r →
      0 ≤ r ∧ (faceCropW 1000 ≤ 1000 → r ≤ 1000 - faceCropW 1000) :=
  C6_face_cluster_selection [100, 100, 100, 100, 500, 500] 1000 1000 (by decide)

set_option maxRecDepth 100000 in
/-- C6 counterexample: clusters of sizes 3 and 2 have ratio exactly 1.5; the
claim's "at least 1.5x" would use the largest cluster's median (yielding
crop offset 0 after clamping), but the code's strict `>` falls through to the
center-closer cluster and returns 219. -/
theorem C6_counterexample :
    detectFaceOffset [100, 100, 100, 500, 500] 1000 1000 = some 219 ∧
    sortedClusters [100, 100, 100, 500, 500] 1000 = [[100, 100, 100], [500, 500]] ∧
    max 0 (min (pyTrunc (npMedian [100, 100, 100]) - (faceCropW 1000).fdiv 2)
      (1000 - faceCropW 1000)) = 0 ∧
    (219 : ℤ) ≠ 0 := by
  refine ⟨?_, ?_, ?_, ?_⟩ <;> with_unfolding_all decide

/-- C7 (confirmed).  `compute_energy_scores` — modelled as a total function,
so the no-raise claim is totality of the embedding — returns exactly one
score per segment, every score lies in `[0, 10]`, and when no sample is above
the −60 dB silence floor every score is `0.0`; all of this holds for every
possible value of the abstracted float square root. -/
theorem C7_energy_scores (sqrtFn : ℚ → ℚ) (energyData : List ESample)
    (segments : List Segment) :
    (computeEnergyScores sqrtFn energyData segments).length = segments.length ∧
    (∀ s ∈ computeEnergyScores sqrtFn energyData segments, 0 ≤ s ∧ s ≤ 10) ∧
    ((∀ e ∈ energyData, e.rms_db ≤ -60) →
      ∀ s ∈ computeEnergyScores sqrtFn energyData segments, s = 0) := by
  simp only [computeEnergyScores]
  split_ifs with h1 h2 h3
  · refine ⟨by simp, ?_, ?_⟩
    · intro s hs
      rw [List.mem_map] at hs
      obtain ⟨x, _, hx⟩ := hs
      rw [← hx]
      norm_num
    · intro _ s hs
      rw [List.mem_map] at hs
      obtain ⟨x, _, hx⟩ := hs
      rw [← hx]
  · refine ⟨by simp, ?_, ?_⟩
    · intro s hs
      rw [List.mem_map] at hs
      obtain ⟨x, _, hx⟩ := hs
      rw [← hx]
      norm_num
    · intro _ s hs
      rw [List.mem_map] at hs
      obtain ⟨x, _, hx⟩ := hs
      rw [← hx]
  · refine ⟨by simp, ?_, ?_⟩
    · intro s hs
      rw [List.mem_map] at hs
      obtain ⟨x, _, hx⟩ := hs
      rw [← hx]
      norm_num
    · intro _ s hs
      rw [List.mem_map] at hs
      obtain ⟨x, _, hx⟩ := hs
      rw [← hx]
  · refine ⟨by simp, ?_, ?_⟩
    · intro s hs
      rw [List.mem_map] at hs
      obtain ⟨seg, _, hx⟩ := hs
      rw [← hx]
      split_ifs with hseg
      · norm_num
      · constructor
        · exact pyRound2_nonneg (le_max_left 0 _)
        · exact pyRound2_le_ten (max_le (by norm_num) (min_le_left _ _))
    · intro hsil
      exfalso
      apply h3
      rw [List.isEmpty_iff, List.eq_nil_iff_forall_not_mem]
      intro r hr
      rw [List.mem_filter] at hr
      obtain ⟨hrmem, hrgt⟩ := hr
      rw [List.mem_map] at hrmem
      obtain ⟨e, he, hre⟩ := hrmem
      have := hsil e he
      rw [← hre] at hrgt
      have hgt : (-60 : ℚ) < e.rms_db := by simpa using hrgt
      linarith

/-- C7 witness: one fully silent sample (−70 dB) and one segment; the single
returned score is 0. -/
theorem C7_witness :
    (computeEnergyScores (fun q => q) [⟨0, -70⟩] [⟨"x", 0, 1⟩]).length = 1 ∧
    (∀ s ∈ computeEnergyScores (fun q => q) [⟨0, -70⟩] [⟨"x", 0, 1⟩], 0 ≤ s ∧ s ≤ 10) ∧
    (∀ s ∈ computeEnergyScores (fun q => q) [⟨0, -70⟩] [⟨"x", 0, 1⟩], s = 0) := by
  obtain ⟨h1, h2, h3⟩ := C7_energy_scores (fun q => q) [⟨0, -70⟩] [⟨"x", 0, 1⟩]
  refine ⟨h1.trans rfl, h2, h3 ?_⟩
  intro e he
  rw [List.mem_singleton] at he
  rw [he]
  show (-70 : ℚ) ≤ -60
  norm_num

/-- C8 (confirmed).  `generate_clip` validates before anything else runs:
whenever the source file is missing, the window is empty or reversed, or the
window exceeds 180 s, it raises — the matching error, in source order — and
the effect trace is empty: no working directory is created and no transform
stage is invoked. -/
theorem C8_validation_fails_fast (videoExists : Bool) (startSecond endSecond : ℚ)
    (captionStyle : String) (hasWords hasOutro : Bool)
    (h : videoExists = false ∨ endSecond ≤ startSecond ∨ 180 < endSecond - startSecond) :
    (generateClipModel videoExists startSecond endSecond captionStyle hasWords hasOutro).1
        = [] ∧
    (generateClipModel videoExists startSecond endSecond captionStyle hasWords
        hasOutro).2.isSome = true ∧
    (videoExists = false →
      (generateClipModel videoExists startSecond endSecond captionStyle hasWords
        hasOutro).2 = some ClipRequestError.videoNotFound) ∧
    (videoExists = true → endSecond ≤ startSecond →
      (generateClipModel videoExists startSecond endSecond captionStyle hasWords
        hasOutro).2 = some ClipRequestError.invalidRange) ∧
    (videoExists = true → 180 < endSecond - startSecond →
      (generateClipModel videoExists startSecond endSecond captionStyle hasWords
        hasOutro).2 = some ClipRequestError.tooLong) := by
  unfold generateClipModel
  cases videoExists with
  | false => simp
  | true =>
      rcases h with h | h | h
      · exact absurd h (by simp)
      · have hno : ¬(180 < endSecond - startSecond) := by linarith
        rw [if_neg (by simp), if_pos h]
        refine ⟨rfl, rfl, by simp, fun _ _ => rfl, ?_⟩
        intro _ hbig
        exact absurd hbig hno
      · have hlt : ¬(endSecond ≤ startSecond) := by
          intro hc
          linarith
        rw [if_neg (by simp), if_neg hlt, if_pos h]
        refine ⟨rfl, rfl, by simp, ?_, fun _ _ => rfl⟩
        intro _ hc
        exact absurd hc hlt

/-- C8 witness: a missing source file at a valid window yields an empty trace
and the file-not-found error. -/
theorem C8_witness :
    (generateClipModel false 0 10 "hormozi" false false).1 = [] ∧
    (generateClipModel false 0 10 "hormozi" false false).2.isSome = true ∧
    (false = false →
      (generateClipModel false 0 10 "hormozi" false false).2 =
        some ClipRequestError.videoNotFound) ∧
    (false = true → (10 : ℚ) ≤ 0 →
      (generateClipModel false 0 10 "hormozi" false false).2 =
        some ClipRequestError.invalidRange) ∧
    (false = true → (180 : ℚ) < 10 - 0 →
      (generateClipModel false 0 10 "hormozi" false false).2 =
        some ClipRequestError.tooLong) :=
  C8_validation_fails_fast false 0 10 "hormozi" false false (Or.inl rfl)

set_option maxRecDepth 100000 in
/-- C9 (confirmed).  For each of the four styles, a word list that sanitizes
to zero words yields a header-only subtitle document: the render returns the
artifact (no raise), it has zero dialogue events, and its header is a
syntactically usable empty ASS skeleton. -/
theorem C9_empty_words_render (ws : List Word) (timeOffset : ℚ) (captionStyle : String)
    (hstyle : captionStyle = "hormozi" ∨ captionStyle = "karaoke" ∨
      captionStyle = "subtle" ∨ captionStyle = "branded")
    (hempty : sanitizeWords ws = []) :
    ∃ doc : AssFile,
      renderCaptions ws captionStyle timeOffset = some doc ∧
      doc.events = [] ∧ validEmptyAss doc := by
  have h1 : (sanitizeWords ws).isEmpty = true := by rw [hempty]; rfl
  rcases hstyle with h | h | h | h <;> subst h <;>
    · simp only [renderCaptions, h1, if_true]
      refine ⟨_, rfl, rfl, ?_⟩
      with_unfolding_all decide

/-- C9 witness: at the empty word list and the hormozi style. -/
theorem C9_witness :
    ∃ doc : AssFile,
      renderCaptions [] "hormozi" 0 = some doc ∧
      doc.events = [] ∧ validEmptyAss doc :=
  C9_empty_words_render [] 0 "hormozi" (Or.inl rfl) rfl

/-- C10 witness: on a two-word list with a 2 s gap the second output word is
the second input word shifted by a nonnegative amount with text and duration
intact. -/
theorem C10_witness :
    ∃ d : ℚ, 0 ≤ d ∧
      ((cleanTranscriptWords [⟨"a", 0, 1⟩, ⟨"b", 3, 4⟩]).getD 1 default).word =
        (([⟨"a", 0, 1⟩, ⟨"b", 3, 4⟩] : List Word).getD 1 default).word ∧
      ((cleanTranscriptWords [⟨"a", 0, 1⟩, ⟨"b", 3, 4⟩]).getD 1 default).stop -
          ((cleanTranscriptWords [⟨"a", 0, 1⟩, ⟨"b", 3, 4⟩]).getD 1 default).start =
        (([⟨"a", 0, 1⟩, ⟨"b", 3, 4⟩] : List Word).getD 1 default).stop -
          (([⟨"a", 0, 1⟩, ⟨"b", 3, 4⟩] : List Word).getD 1 default).start ∧
      (cleanTranscriptWords [⟨"a", 0, 1⟩, ⟨"b", 3, 4⟩]).getD 1 default =
        shiftWord d (([⟨"a", 0, 1⟩, ⟨"b", 3, 4⟩] : List Word).getD 1 default) := by
  have hrm : removeFillers [⟨"a", 0, 1⟩, ⟨"b", 3, 4⟩] = [⟨"a", 0, 1⟩, ⟨"b", 3, 4⟩] := by
    with_unfolding_all decide
  have := (C10_clean_words_frame [⟨"a", 0, 1⟩, ⟨"b", 3, 4⟩]).2.2 1 (by with_unfolding_all decide)
  rwa [hrm] at this

end Podcli
